import Mathlib

/-
  Verification of the CPI index engine (dashboard/cpi_engine.py and
  analysis/cpi_wizard.py) against its natural-language specification.

  Shallow embedding conventions:
  * Python floats are modelled as rationals; every arithmetic step of the
    source is translated literally.
  * The source returns dictionaries with a success flag; the embedding uses
    Except (List CoreError) CoreSuccess for the algebraic calculator and
    Option LaspeyresResult for the direct calculator (None in the source is
    Option.none here).
  * Error message strings of the source are abstracted to the inductive
    CoreError, one constructor per validation condition; the Python message
    text interpolates numbers but its identity is the condition.
-/

namespace CPI

/-! ## Part 1: algebraic core-index calculator
    (cpi_engine.py, calculate_core_with_manual_exclusions) -/

/-- One exclusion row as passed to calculate_core_with_manual_exclusions:
    a name plus (index, weight) pairs for the old and the new period. -/
structure Exclusion where
  name : String
  old_index : ℚ
  old_weight : ℚ
  new_index : ℚ
  new_weight : ℚ
  deriving DecidableEq

/-- The input of calculate_core_with_manual_exclusions: headline
    (index, weight) pairs for both periods and the exclusion list. -/
structure CoreInput where
  headline_old_index : ℚ
  headline_old_weight : ℚ
  headline_new_index : ℚ
  headline_new_weight : ℚ
  exclusions : List Exclusion
  deriving DecidableEq

/-- One constructor per validation condition of the source; the Python code
    appends one message string per condition to its errors list. -/
inductive CoreError where
  | nonPositiveHeadlineIndex
  | nonPositiveHeadlineWeight
  | noValidExclusions
  | excludedOldTooLarge
  | excludedNewTooLarge
  deriving DecidableEq

/-- The source skips an exclusion when old_wt <= 0 and new_wt <= 0
    (continue in the loop); the remaining rows are the valid exclusions. -/
def validExclusions (l : List Exclusion) : List Exclusion :=
  l.filter fun e => decide (0 < e.old_weight ∨ 0 < e.new_weight)

/-- total_excluded_old_weight accumulated over the valid exclusions. -/
def totalExcludedOldWeight (inp : CoreInput) : ℚ :=
  ((validExclusions inp.exclusions).map (fun e => e.old_weight)).sum

/-- total_excluded_new_weight accumulated over the valid exclusions. -/
def totalExcludedNewWeight (inp : CoreInput) : ℚ :=
  ((validExclusions inp.exclusions).map (fun e => e.new_weight)).sum

/-- weighted_sum_old_exclusions accumulated over the valid exclusions. -/
def weightedSumOldExclusions (inp : CoreInput) : ℚ :=
  ((validExclusions inp.exclusions).map (fun e => e.old_index * e.old_weight)).sum

/-- weighted_sum_new_exclusions accumulated over the valid exclusions. -/
def weightedSumNewExclusions (inp : CoreInput) : ℚ :=
  ((validExclusions inp.exclusions).map (fun e => e.new_index * e.new_weight)).sum

/-- Condition for the message: Headline index values must be positive. -/
abbrev idxCond (inp : CoreInput) : Prop :=
  inp.headline_old_index ≤ 0 ∨ inp.headline_new_index ≤ 0

/-- Condition for the message: Headline weight values must be positive. -/
abbrev wtCond (inp : CoreInput) : Prop :=
  inp.headline_old_weight ≤ 0 ∨ inp.headline_new_weight ≤ 0

/-- Condition for the message: No valid exclusions provided. -/
abbrev noExclCond (inp : CoreInput) : Prop :=
  validExclusions inp.exclusions = []

/-- Condition for the message: Total excluded old weight must be less than
    headline weight (the source tests total >= headline). -/
abbrev oldWtCond (inp : CoreInput) : Prop :=
  inp.headline_old_weight ≤ totalExcludedOldWeight inp

/-- Condition for the new-period analogue of oldWtCond. -/
abbrev newWtCond (inp : CoreInput) : Prop :=
  inp.headline_new_weight ≤ totalExcludedNewWeight inp

/-- The accumulated validation error list, in source order: all conditions
    are checked before any return, so several violations produce several
    entries in one list. -/
def coreErrors (inp : CoreInput) : List CoreError :=
  (if idxCond inp then [CoreError.nonPositiveHeadlineIndex] else []) ++
  (if wtCond inp then [CoreError.nonPositiveHeadlineWeight] else []) ++
  (if noExclCond inp then [CoreError.noValidExclusions] else []) ++
  (if oldWtCond inp then [CoreError.excludedOldTooLarge] else []) ++
  (if newWtCond inp then [CoreError.excludedNewTooLarge] else [])

/-- The success dictionary of calculate_core_with_manual_exclusions,
    field names kept from the source keys. -/
structure CoreSuccess where
  headline_old_index : ℚ
  headline_new_index : ℚ
  headline_old_weight : ℚ
  headline_new_weight : ℚ
  headline_inflation : ℚ
  old_index : ℚ
  new_index : ℚ
  old_weight : ℚ
  new_weight : ℚ
  inflation_rate : ℚ
  difference_from_headline : ℚ
  total_excluded_old_weight : ℚ
  total_excluded_new_weight : ℚ
  remaining_old_weight : ℚ
  remaining_new_weight : ℚ
  excluded_items_count : ℕ
  exclusions : List Exclusion
  deriving DecidableEq

/-- The computation block of the source after validation passed:
    ex index = (headline index * headline weight - weighted exclusion sum)
    divided by the remaining weight, for each period, then the inflation
    rates and the difference. -/
def coreSuccessOf (inp : CoreInput) : CoreSuccess :=
  let weighted_headline_old := inp.headline_old_index * inp.headline_old_weight
  let remaining_old_weight := inp.headline_old_weight - totalExcludedOldWeight inp
  let cpi_ex_old_index :=
    (weighted_headline_old - weightedSumOldExclusions inp) / remaining_old_weight
  let weighted_headline_new := inp.headline_new_index * inp.headline_new_weight
  let remaining_new_weight := inp.headline_new_weight - totalExcludedNewWeight inp
  let cpi_ex_new_index :=
    (weighted_headline_new - weightedSumNewExclusions inp) / remaining_new_weight
  let headline_inflation :=
    (inp.headline_new_index - inp.headline_old_index) / inp.headline_old_index * 100
  let cpi_ex_inflation :=
    (cpi_ex_new_index - cpi_ex_old_index) / cpi_ex_old_index * 100
  { headline_old_index := inp.headline_old_index
    headline_new_index := inp.headline_new_index
    headline_old_weight := inp.headline_old_weight
    headline_new_weight := inp.headline_new_weight
    headline_inflation := headline_inflation
    old_index := cpi_ex_old_index
    new_index := cpi_ex_new_index
    old_weight := remaining_old_weight
    new_weight := remaining_new_weight
    inflation_rate := cpi_ex_inflation
    difference_from_headline := cpi_ex_inflation - headline_inflation
    total_excluded_old_weight := totalExcludedOldWeight inp
    total_excluded_new_weight := totalExcludedNewWeight inp
    remaining_old_weight := remaining_old_weight
    remaining_new_weight := remaining_new_weight
    excluded_items_count := (validExclusions inp.exclusions).length
    exclusions := validExclusions inp.exclusions }

/-- calculate_core_with_manual_exclusions: validate everything first; on any
    accumulated error return the failing result (success False with the full
    error list), otherwise compute the success dictionary. -/
def calculate_core_with_manual_exclusions (inp : CoreInput) :
    Except (List CoreError) CoreSuccess :=
  if coreErrors inp = [] then Except.ok (coreSuccessOf inp)
  else Except.error (coreErrors inp)

/-- Success flag of a calculator outcome (the success key of the source). -/
def coreIsOk : Except (List CoreError) CoreSuccess → Bool
  | Except.ok _ => true
  | Except.error _ => false

/-- The old_index key of a successful outcome (0 on failure). -/
def coreOldIndex : Except (List CoreError) CoreSuccess → ℚ
  | Except.ok r => r.old_index
  | Except.error _ => 0

/-- The new_index key of a successful outcome (0 on failure). -/
def coreNewIndex : Except (List CoreError) CoreSuccess → ℚ
  | Except.ok r => r.new_index
  | Except.error _ => 0

/-- The headline_inflation key of a successful outcome (0 on failure). -/
def coreHeadlineInflation : Except (List CoreError) CoreSuccess → ℚ
  | Except.ok r => r.headline_inflation
  | Except.error _ => 0

/-- The inflation_rate key of a successful outcome (0 on failure). -/
def coreInflationRate : Except (List CoreError) CoreSuccess → ℚ
  | Except.ok r => r.inflation_rate
  | Except.error _ => 0

/-- The difference_from_headline key of a successful outcome (0 on failure). -/
def coreDifference : Except (List CoreError) CoreSuccess → ℚ
  | Except.ok r => r.difference_from_headline
  | Except.error _ => 0

/-- The remaining_old_weight key of a successful outcome (0 on failure). -/
def coreRemainingOld : Except (List CoreError) CoreSuccess → ℚ
  | Except.ok r => r.remaining_old_weight
  | Except.error _ => 0

/-- The remaining_new_weight key of a successful outcome (0 on failure). -/
def coreRemainingNew : Except (List CoreError) CoreSuccess → ℚ
  | Except.ok r => r.remaining_new_weight
  | Except.error _ => 0

/-- The documented scenario of the spec: headline 100.0 and 115.45 at weight
    100 in both periods, one exclusion Food with old 105.0 at 40.0 and new
    130.0 at 40.0. -/
def scenarioInput : CoreInput :=
  { headline_old_index := 100
    headline_old_weight := 100
    headline_new_index := 115.45
    headline_new_weight := 100
    exclusions := [{ name := "Food", old_index := 105, old_weight := 40,
                     new_index := 130, new_weight := 40 }] }

/-- The boundary input of the spec: one exclusion whose old weight equals
    the old headline weight of 100. -/
def boundaryInput : CoreInput :=
  { headline_old_index := 100
    headline_old_weight := 100
    headline_new_index := 115.45
    headline_new_weight := 100
    exclusions := [{ name := "Food", old_index := 105, old_weight := 100,
                     new_index := 130, new_weight := 100 }] }

/-- An input violating several validation conditions at once: non-positive
    old headline index, non-positive old headline weight, and an empty
    exclusion list (which also makes the zero excluded total reach the zero
    old headline weight). -/
def multiBadInput : CoreInput :=
  { headline_old_index := -1
    headline_old_weight := 0
    headline_new_index := 100
    headline_new_weight := 100
    exclusions := [] }

/-! ## Part 2: direct Laspeyres index calculator
    (cpi_engine.py, _calculate_laspeyres, get_headline_index,
     get_index_with_exclusions) -/

/-- One row of the items weight table: Item_Code and Weight. -/
structure Item where
  code : String
  weight : ℚ
  deriving DecidableEq

/-- One row of the price table: Item_Code plus one price-relative cell per
    month column (the frame is dense, so the cell map is total). -/
structure PriceRow where
  code : String
  price : String → ℚ

/-- A class node of the engine hierarchy dictionary: its code and the leaf
    item codes collected under it via subclasses. -/
structure ClassNode where
  code : String
  items : List String

/-- A group node of the engine hierarchy dictionary. -/
structure GroupNode where
  code : String
  classes : List ClassNode

/-- A division node of the engine hierarchy dictionary. -/
structure DivisionNode where
  code : String
  groups : List GroupNode

/-- The CPIEngine state after loading: items_df, prices_df, months and the
    nested hierarchy (weights of inner nodes are not needed by the claims). -/
structure Engine where
  itemsDf : List Item
  pricesDf : List PriceRow
  months : List String
  hierarchy : List DivisionNode

/-- One entry of Monthly_Data: the month label, the Index value and the
    MoM_Change_% value attached in the second pass of the source. -/
structure MonthEntry where
  month : String
  index : ℚ
  mom : ℚ
  deriving DecidableEq

/-- The result dictionary of _calculate_laspeyres, source key names kept. -/
structure LaspeyresResult where
  variant : String
  items_count : ℕ
  total_weight : ℚ
  weight_normalized : ℚ
  monthly_data : List MonthEntry
  deriving DecidableEq

/-- items_data: the items frame filtered to the selected item codes. -/
def selectedItems (e : Engine) (codes : List String) : List Item :=
  e.itemsDf.filter fun it => codes.contains it.code

/-- prices_data: the price frame filtered to the selected item codes. -/
def selectedPrices (e : Engine) (codes : List String) : List PriceRow :=
  e.pricesDf.filter fun p => codes.contains p.code

/-- weight_sum: the raw weight total of the selected items. -/
def rawWeightSum (e : Engine) (codes : List String) : ℚ :=
  ((selectedItems e codes).map (fun it => it.weight)).sum

/-- Series lookup into a weight frame keyed by item code (codes looked up
    are always present, the default 0 is never reached on such codes). -/
def weightOf (items : List Item) (c : String) : ℚ :=
  ((items.find? fun it => it.code == c).map (fun it => it.weight)).getD 0

/-- weights_normalized: weight divided by the subset raw sum, times 100. -/
def normWeight (e : Engine) (codes : List String) (c : String) : ℚ :=
  weightOf (selectedItems e codes) c / rawWeightSum e codes * 100

/-- matched_items: the codes present in both the filtered price frame and
    the filtered weight frame (the source takes a Python set intersection;
    order never matters because only rational sums are formed over it). -/
def matchedCodes (e : Engine) (codes : List String) : List String :=
  (((selectedPrices e codes).map (fun p => p.code)).filter
    fun c => ((selectedItems e codes).map (fun it => it.code)).contains c).dedup

/-- Series lookup into the filtered price frame for one month cell. -/
def priceOf (e : Engine) (codes : List String) (c m : String) : ℚ :=
  (((selectedPrices e codes).find? fun p => p.code == c).map
    (fun p => p.price m)).getD 0

/-- weight_total: the normalized weights of the matched items, summed (the
    matched set does not depend on the month, so neither does this total). -/
def weightTotal (e : Engine) (codes : List String) : ℚ :=
  ((matchedCodes e codes).map (normWeight e codes)).sum

/-- weighted_sum: price relative times normalized weight over the matched
    items, for one month. -/
def weightedSum (e : Engine) (codes : List String) (m : String) : ℚ :=
  ((matchedCodes e codes).map
    (fun c => priceOf e codes c m * normWeight e codes c)).sum

/-- The per-month loop of _calculate_laspeyres: skip a month with no matched
    items, otherwise the index is weighted_sum / weight_total * 100 when
    weight_total > 0 and the default 100.0 otherwise (the else branch of the
    source). -/
def monthlyIndexes (e : Engine) (codes : List String) : List (String × ℚ) :=
  e.months.filterMap fun m =>
    if (matchedCodes e codes).isEmpty then none
    else some (m, if 0 < weightTotal e codes
                  then weightedSum e codes m / weightTotal e codes * 100
                  else 100)

/-- The MoM pass over the tail of Monthly_Data: every entry after the first
    carries (index - previous index) / previous index * 100. -/
def momRest (prev : ℚ) : List (String × ℚ) → List MonthEntry
  | [] => []
  | y :: ys => ⟨y.1, y.2, (y.2 - prev) / prev * 100⟩ :: momRest y.2 ys

/-- The MoM pass of _calculate_laspeyres: the first entry gets the explicit
    value 0.0, later entries the percent change against the previous one. -/
def attachMom : List (String × ℚ) → List MonthEntry
  | [] => []
  | x :: xs => ⟨x.1, x.2, 0⟩ :: momRest x.2 xs

/-- _calculate_laspeyres (leading underscore dropped): None when the code
    list is empty or when either filtered frame is empty, otherwise the
    computed result dictionary. -/
def calculate_laspeyres (e : Engine) (codes : List String) (variant : String) :
    Option LaspeyresResult :=
  if codes.isEmpty then none
  else if (selectedItems e codes).isEmpty || (selectedPrices e codes).isEmpty then none
  else some
    { variant := variant
      items_count := (selectedItems e codes).length
      total_weight := rawWeightSum e codes
      weight_normalized := rawWeightSum e codes / rawWeightSum e codes * 100
      monthly_data := attachMom (monthlyIndexes e codes) }

/-- get_headline_index: the full item list, no exclusion. -/
def get_headline_index (e : Engine) : Option LaspeyresResult :=
  calculate_laspeyres e (e.itemsDf.map (fun it => it.code)) "Headline CPI"

/-- The three exclusion loops of get_index_with_exclusions: all leaf items
    under every selected division, group and class code. -/
def excludedItemsOf (h : List DivisionNode) (eds egs ecs : List String) :
    List String :=
  (eds.flatMap fun dc => (h.filter fun d => d.code == dc).flatMap fun d =>
      d.groups.flatMap fun g => g.classes.flatMap fun cl => cl.items) ++
  (egs.flatMap fun gc => h.flatMap fun d =>
      (d.groups.filter fun g => g.code == gc).flatMap fun g =>
        g.classes.flatMap fun cl => cl.items) ++
  (ecs.flatMap fun cc => h.flatMap fun d => d.groups.flatMap fun g =>
      (g.classes.filter fun cl => cl.code == cc).flatMap fun cl => cl.items)

/-- get_index_with_exclusions: the selected codes are all item codes minus
    the excluded ones (the source materializes a Python set difference; the
    calculation downstream is membership-invariant, so the order-preserving
    filter is observationally the same), then _calculate_laspeyres (the
    extra excluded_items_count and excluded_weight keys the source attaches
    are not needed by any claim). -/
def get_index_with_exclusions (e : Engine) (eds egs ecs : List String) :
    Option LaspeyresResult :=
  let excluded := excludedItemsOf e.hierarchy eds egs ecs
  let selected := (e.itemsDf.map (fun it => it.code)).filter
    fun c => !(excluded.contains c)
  calculate_laspeyres e selected "CPI with Exclusions"

/-- Monthly_Data of an optional result ([] on None). -/
def lMonthly : Option LaspeyresResult → List MonthEntry
  | some r => r.monthly_data
  | none => []

/-- The matched (price relative, normalized weight) pairs of one month. -/
def matchedPairs (e : Engine) (codes : List String) (m : String) :
    List (ℚ × ℚ) :=
  (matchedCodes e codes).map fun c => (priceOf e codes c m, normWeight e codes c)

/-- Modelled from the spec: the weighted arithmetic mean of a list of
    (value, weight) pairs, the notion the spec uses to describe the
    per-period index; to be compared with the source computations. -/
def specWeightedMean (rows : List (ℚ × ℚ)) : ℚ :=
  (rows.map (fun r => r.1 * r.2)).sum / (rows.map (fun r => r.2)).sum

/-! ## Part 3: wizard calculation and exclusion toggling
    (analysis/cpi_wizard.py) -/

/-- _get_excluded_item_codes is name-based in the wizard; for the claims only
    the remaining rows matter: item_map rows whose code is not excluded. -/
def wizardRemaining (itemMap : List Item) (excluded : List String) : List Item :=
  itemMap.filter fun it => !(excluded.contains it.code)

/-- The weight step of _calculate_current: None (with the error print
    all items excluded, cannot calculate index) when nothing remains,
    otherwise each remaining weight renormalized to weight / total * 100. -/
def wizardNormWeights (itemMap : List Item) (excluded : List String) :
    Option (List (String × ℚ)) :=
  let remaining := wizardRemaining itemMap excluded
  if remaining.isEmpty then none
  else
    let total := (remaining.map (fun it => it.weight)).sum
    some (remaining.map fun it => (it.code, it.weight / total * 100))

/-- The groupby-apply cell of _calculate_current: sum of index times
    norm_weight divided by the sum of norm_weight over the rows of one
    (date, state, sector) cell. -/
def wizardCellIndex (rows : List (ℚ × ℚ)) : ℚ :=
  (rows.map (fun r => r.1 * r.2)).sum / (rows.map (fun r => r.2)).sum

/-- The tail of a pandas pct_change series within one group. -/
def wizardRest (prev : ℚ) : List ℚ → List (Option ℚ)
  | [] => []
  | y :: ys => some ((y - prev) / prev * 100) :: wizardRest y ys

/-- calculate_mom_change restricted to one group key: pct_change * 100 over
    the date-sorted index series of that group; the first row of the group
    is the NaN marker of pandas, embedded as none. -/
def calculate_mom_change : List ℚ → List (Option ℚ)
  | [] => []
  | x :: xs => none :: wizardRest x xs

/-- calculate_mom_change over all groups: the change restarts at the first
    period of every group key. -/
def calculate_mom_change_grouped (gs : List (String × List ℚ)) :
    List (String × List (Option ℚ)) :=
  gs.map fun g => (g.1, calculate_mom_change g.2)

/-- _pick_exclusion, one toggle step on one level collection: remove the
    name when present (Python list.remove takes the first occurrence),
    append it otherwise. -/
def pick_exclusion (sel : List String) (name : String) : List String :=
  if name ∈ sel then sel.erase name else sel ++ [name]

/-! ## Concrete instances used by counterexamples and witnesses -/

/-- An engine whose single selected item carries weight zero: the raw
    weight sum of the selection is 0, yet a result is produced. -/
def engineZeroWeight : Engine :=
  { itemsDf := [{ code := "A", weight := 0 }]
    pricesDf := [{ code := "A", price := fun _ => 50 }]
    months := ["2024-01"]
    hierarchy := [] }

/-- An engine where the only item matched against the price frame carries
    normalized weight zero while another selected item holds the weight. -/
def engineZeroMatched : Engine :=
  { itemsDf := [{ code := "A", weight := 0 }, { code := "B", weight := 5 }]
    pricesDf := [{ code := "A", price := fun _ => 50 }]
    months := ["2024-01"]
    hierarchy := [] }

/-- A minimal engine with one item of weight 2 and price relative 50. -/
def engineSimple : Engine :=
  { itemsDf := [{ code := "A", weight := 2 }]
    pricesDf := [{ code := "A", price := fun _ => 50 }]
    months := ["2024-01"]
    hierarchy := [] }

/-- An engine whose one-division hierarchy covers its only item, so that
    excluding the division excludes every item. -/
def engineHier : Engine :=
  { itemsDf := [{ code := "A", weight := 5 }]
    pricesDf := [{ code := "A", price := fun _ => 50 }]
    months := ["2024-01"]
    hierarchy := [{ code := "D1",
                    groups := [{ code := "G1",
                                 classes := [{ code := "K1", items := ["A"] }] }] }] }

/-! ## Helper lemmas for the algebraic calculator -/

lemma coreErrors_eq_nil_iff (inp : CoreInput) :
    coreErrors inp = [] ↔
      ¬ idxCond inp ∧ ¬ wtCond inp ∧ ¬ noExclCond inp ∧
      ¬ oldWtCond inp ∧ ¬ newWtCond inp := by
  by_cases h1 : idxCond inp <;> by_cases h2 : wtCond inp <;>
    by_cases h3 : noExclCond inp <;> by_cases h4 : oldWtCond inp <;>
    by_cases h5 : newWtCond inp <;> simp [coreErrors, h1, h2, h3, h4, h5]

lemma coreErrors_mem_all (inp : CoreInput) :
    (idxCond inp → CoreError.nonPositiveHeadlineIndex ∈ coreErrors inp) ∧
    (wtCond inp → CoreError.nonPositiveHeadlineWeight ∈ coreErrors inp) ∧
    (noExclCond inp → CoreError.noValidExclusions ∈ coreErrors inp) ∧
    (oldWtCond inp → CoreError.excludedOldTooLarge ∈ coreErrors inp) ∧
    (newWtCond inp → CoreError.excludedNewTooLarge ∈ coreErrors inp) := by
  by_cases h1 : idxCond inp <;> by_cases h2 : wtCond inp <;>
    by_cases h3 : noExclCond inp <;> by_cases h4 : oldWtCond inp <;>
    by_cases h5 : newWtCond inp <;> simp [coreErrors, h1, h2, h3, h4, h5]

lemma core_eq_ok (inp : CoreInput) (h : coreErrors inp = []) :
    calculate_core_with_manual_exclusions inp = Except.ok (coreSuccessOf inp) := by
  simp [calculate_core_with_manual_exclusions, h]

lemma core_eq_err (inp : CoreInput) (h : coreErrors inp ≠ []) :
    calculate_core_with_manual_exclusions inp = Except.error (coreErrors inp) := by
  simp [calculate_core_with_manual_exclusions, h]

lemma coreIsOk_iff (inp : CoreInput) :
    coreIsOk (calculate_core_with_manual_exclusions inp) = true ↔
      coreErrors inp = [] := by
  by_cases h : coreErrors inp = [] <;>
    simp [calculate_core_with_manual_exclusions, coreIsOk, h]

lemma scenario_valid :
    validExclusions scenarioInput.exclusions = scenarioInput.exclusions := by
  norm_num [validExclusions, scenarioInput, List.filter_cons, List.filter_nil]

lemma scenario_tot_old : totalExcludedOldWeight scenarioInput = 40 := by
  norm_num [totalExcludedOldWeight, validExclusions, scenarioInput,
    List.filter_cons, List.filter_nil]

lemma scenario_tot_new : totalExcludedNewWeight scenarioInput = 40 := by
  norm_num [totalExcludedNewWeight, validExclusions, scenarioInput,
    List.filter_cons, List.filter_nil]

lemma scenario_ws_old : weightedSumOldExclusions scenarioInput = 4200 := by
  norm_num [weightedSumOldExclusions, validExclusions, scenarioInput,
    List.filter_cons, List.filter_nil]

lemma scenario_ws_new : weightedSumNewExclusions scenarioInput = 5200 := by
  norm_num [weightedSumNewExclusions, validExclusions, scenarioInput,
    List.filter_cons, List.filter_nil]

lemma scenario_errors_nil : coreErrors scenarioInput = [] := by
  simp only [coreErrors, idxCond, wtCond, noExclCond, oldWtCond, newWtCond,
    scenario_tot_old, scenario_tot_new, scenario_valid]
  norm_num [scenarioInput]

lemma scenario_ok :
    calculate_core_with_manual_exclusions scenarioInput =
      Except.ok (coreSuccessOf scenarioInput) :=
  core_eq_ok _ scenario_errors_nil

lemma scenario_old_index :
    coreOldIndex (calculate_core_with_manual_exclusions scenarioInput) =
      290 / 3 := by
  rw [scenario_ok]
  show (coreSuccessOf scenarioInput).old_index = 290 / 3
  simp only [coreSuccessOf, scenario_tot_old, scenario_ws_old]
  norm_num [scenarioInput]

lemma scenario_new_index :
    coreNewIndex (calculate_core_with_manual_exclusions scenarioInput) =
      423 / 4 := by
  rw [scenario_ok]
  show (coreSuccessOf scenarioInput).new_index = 423 / 4
  simp only [coreSuccessOf, scenario_tot_new, scenario_ws_new]
  norm_num [scenarioInput]

lemma scenario_headline_infl :
    coreHeadlineInflation (calculate_core_with_manual_exclusions scenarioInput) =
      309 / 20 := by
  rw [scenario_ok]
  show (coreSuccessOf scenarioInput).headline_inflation = 309 / 20
  simp only [coreSuccessOf]
  norm_num [scenarioInput]

lemma scenario_infl :
    coreInflationRate (calculate_core_with_manual_exclusions scenarioInput) =
      545 / 58 := by
  rw [scenario_ok]
  show (coreSuccessOf scenarioInput).inflation_rate = 545 / 58
  simp only [coreSuccessOf, scenario_tot_old, scenario_tot_new,
    scenario_ws_old, scenario_ws_new]
  norm_num [scenarioInput]

lemma scenario_diff :
    coreDifference (calculate_core_with_manual_exclusions scenarioInput) =
      -3511 / 580 := by
  rw [scenario_ok]
  show (coreSuccessOf scenarioInput).difference_from_headline = -3511 / 580
  simp only [coreSuccessOf, scenario_tot_old, scenario_tot_new,
    scenario_ws_old, scenario_ws_new]
  norm_num [scenarioInput]

lemma boundary_oldWtCond : oldWtCond boundaryInput := by
  have h : totalExcludedOldWeight boundaryInput = 100 := by
    norm_num [totalExcludedOldWeight, validExclusions, boundaryInput,
      List.filter_cons, List.filter_nil]
  show boundaryInput.headline_old_weight ≤ totalExcludedOldWeight boundaryInput
  rw [h]
  norm_num [boundaryInput]

lemma multiBad_idxCond : idxCond multiBadInput := by
  norm_num [idxCond, multiBadInput]

lemma multiBad_wtCond : wtCond multiBadInput := by
  norm_num [wtCond, multiBadInput]

lemma multiBad_noExclCond : noExclCond multiBadInput := rfl

lemma multiBad_oldWtCond : oldWtCond multiBadInput := by
  show multiBadInput.headline_old_weight ≤ totalExcludedOldWeight multiBadInput
  norm_num [totalExcludedOldWeight, validExclusions, multiBadInput,
    List.filter_nil]

/-! ## Claim theorems for the algebraic calculator -/

/-- Claim C1, amended: for every valid input (positive headline indices and
    weights, at least one exclusion with positive weight, total excluded
    weight strictly below the headline weight in both periods) the returned
    ex-items index of each period equals (headline index times headline
    weight minus the weighted exclusion sum) divided by the remaining
    weight; at the documented scenario the ex-items old index is
    (100 * 100 - 105 * 40) / (100 - 40), the new index is
    (115.45 * 100 - 130 * 40) / (100 - 40), headline inflation is 15.45
    percent, ex-items inflation is 545/58 (about 9.40 percent) and the
    difference of inflations is -3511/580 (about -6.05 percentage points,
    not the -4.23 stated by the spec). -/
theorem core_formula_and_scenario :
    (∀ inp : CoreInput,
        0 < inp.headline_old_index → 0 < inp.headline_new_index →
        0 < inp.headline_old_weight → 0 < inp.headline_new_weight →
        validExclusions inp.exclusions ≠ [] →
        totalExcludedOldWeight inp < inp.headline_old_weight →
        totalExcludedNewWeight inp < inp.headline_new_weight →
        coreIsOk (calculate_core_with_manual_exclusions inp) = true ∧
        coreOldIndex (calculate_core_with_manual_exclusions inp) =
          (inp.headline_old_index * inp.headline_old_weight -
            weightedSumOldExclusions inp) /
            (inp.headline_old_weight - totalExcludedOldWeight inp) ∧
        coreNewIndex (calculate_core_with_manual_exclusions inp) =
          (inp.headline_new_index * inp.headline_new_weight -
            weightedSumNewExclusions inp) /
            (inp.headline_new_weight - totalExcludedNewWeight inp)) ∧
    coreOldIndex (calculate_core_with_manual_exclusions scenarioInput) =
      (100 * 100 - 105 * 40) / (100 - 40) ∧
    coreNewIndex (calculate_core_with_manual_exclusions scenarioInput) =
      (115.45 * 100 - 130 * 40) / (100 - 40) ∧
    coreHeadlineInflation (calculate_core_with_manual_exclusions scenarioInput) =
      15.45 ∧
    coreInflationRate (calculate_core_with_manual_exclusions scenarioInput) =
      545 / 58 ∧
    coreDifference (calculate_core_with_manual_exclusions scenarioInput) =
      -3511 / 580 := by
  constructor
  · intro inp h1 h2 h3 h4 h5 h6 h7
    have hnil : coreErrors inp = [] := by
      refine (coreErrors_eq_nil_iff inp).mpr ⟨?_, ?_, h5, ?_, ?_⟩
      · simp only [idxCond, not_or, not_le]
        exact ⟨h1, h2⟩
      · simp only [wtCond, not_or, not_le]
        exact ⟨h3, h4⟩
      · exact not_le.mpr h6
      · exact not_le.mpr h7
    rw [core_eq_ok inp hnil]
    exact ⟨rfl, rfl, rfl⟩
  · refine ⟨?_, ?_, ?_, ?_, ?_⟩
    · rw [scenario_old_index]
      norm_num
    · rw [scenario_new_index]
      norm_num
    · rw [scenario_headline_infl]
      norm_num
    · exact scenario_infl
    · exact scenario_diff

/-- Witness for C1: the general formula component applied at the documented
    scenario input, every hypothesis discharged there. -/
theorem core_formula_and_scenario_witness :
    coreIsOk (calculate_core_with_manual_exclusions scenarioInput) = true ∧
    coreOldIndex (calculate_core_with_manual_exclusions scenarioInput) =
      (scenarioInput.headline_old_index * scenarioInput.headline_old_weight -
        weightedSumOldExclusions scenarioInput) /
        (scenarioInput.headline_old_weight - totalExcludedOldWeight scenarioInput) ∧
    coreNewIndex (calculate_core_with_manual_exclusions scenarioInput) =
      (scenarioInput.headline_new_index * scenarioInput.headline_new_weight -
        weightedSumNewExclusions scenarioInput) /
        (scenarioInput.headline_new_weight - totalExcludedNewWeight scenarioInput) :=
  core_formula_and_scenario.1 scenarioInput (by norm_num [scenarioInput])
    (by norm_num [scenarioInput]) (by norm_num [scenarioInput])
    (by norm_num [scenarioInput])
    (by rw [scenario_valid]; simp [scenarioInput])
    (by rw [scenario_tot_old]; norm_num [scenarioInput])
    (by rw [scenario_tot_new]; norm_num [scenarioInput])

/-- Counterexample for C1 as stated: at the documented scenario the
    calculator returns success with a difference of -3511/580, which is
    about -6.05 percentage points and more than one full percentage point
    away from the -4.23 asserted by the claim. -/
theorem scenario_difference_is_not_minus423 :
    coreIsOk (calculate_core_with_manual_exclusions scenarioInput) = true ∧
    coreDifference (calculate_core_with_manual_exclusions scenarioInput) =
      -3511 / 580 ∧
    1 < |coreDifference (calculate_core_with_manual_exclusions scenarioInput) -
          (-4.23)| := by
  refine ⟨?_, scenario_diff, ?_⟩
  · rw [scenario_ok]
    rfl
  · rw [scenario_diff]
    rw [abs_of_neg (by norm_num)]
    norm_num

/-- Claim C2: whenever the total excluded weight of a period reaches or
    exceeds that period headline weight, the calculator fails with a
    non-empty error list; and whenever it succeeds, the excluded totals are
    strictly below the headline weights, so both remaining weights (the
    denominators) are strictly positive. -/
theorem core_weight_validation (inp : CoreInput) :
    ((oldWtCond inp ∨ newWtCond inp) →
       calculate_core_with_manual_exclusions inp =
         Except.error (coreErrors inp) ∧ coreErrors inp ≠ []) ∧
    (coreIsOk (calculate_core_with_manual_exclusions inp) = true →
       totalExcludedOldWeight inp < inp.headline_old_weight ∧
       totalExcludedNewWeight inp < inp.headline_new_weight ∧
       coreRemainingOld (calculate_core_with_manual_exclusions inp) =
         inp.headline_old_weight - totalExcludedOldWeight inp ∧
       0 < coreRemainingOld (calculate_core_with_manual_exclusions inp) ∧
       coreRemainingNew (calculate_core_with_manual_exclusions inp) =
         inp.headline_new_weight - totalExcludedNewWeight inp ∧
       0 < coreRemainingNew (calculate_core_with_manual_exclusions inp)) := by
  constructor
  · intro h
    have hne : coreErrors inp ≠ [] := by
      intro hnil
      rcases (coreErrors_eq_nil_iff inp).mp hnil with ⟨-, -, -, h4, h5⟩
      rcases h with h | h
      exacts [h4 h, h5 h]
    exact ⟨core_eq_err inp hne, hne⟩
  · intro hok
    have hnil : coreErrors inp = [] := (coreIsOk_iff inp).mp hok
    rcases (coreErrors_eq_nil_iff inp).mp hnil with ⟨-, -, -, h4, h5⟩
    have hlt1 : totalExcludedOldWeight inp < inp.headline_old_weight :=
      lt_of_not_le h4
    have hlt2 : totalExcludedNewWeight inp < inp.headline_new_weight :=
      lt_of_not_le h5
    rw [core_eq_ok inp hnil]
    exact ⟨hlt1, hlt2, rfl, sub_pos.mpr hlt1, rfl, sub_pos.mpr hlt2⟩

/-- Witness for C2: the spec boundary input (exclusion weight 100 against
    headline weight 100) makes the calculator fail with errors. -/
theorem core_weight_validation_witness :
    calculate_core_with_manual_exclusions boundaryInput =
      Except.error (coreErrors boundaryInput) ∧
    coreErrors boundaryInput ≠ [] :=
  (core_weight_validation boundaryInput).1 (Or.inl boundary_oldWtCond)

/-- Claim C4: if any of the validation conditions is violated the calculator
    returns the single accumulated error list, and that list contains an
    entry for every violated condition, so several simultaneous violations
    are all reported together. -/
theorem validation_errors_accumulated (inp : CoreInput) :
    ((idxCond inp ∨ wtCond inp ∨ noExclCond inp ∨ oldWtCond inp ∨ newWtCond inp) →
       calculate_core_with_manual_exclusions inp =
         Except.error (coreErrors inp)) ∧
    (idxCond inp → CoreError.nonPositiveHeadlineIndex ∈ coreErrors inp) ∧
    (wtCond inp → CoreError.nonPositiveHeadlineWeight ∈ coreErrors inp) ∧
    (noExclCond inp → CoreError.noValidExclusions ∈ coreErrors inp) ∧
    (oldWtCond inp → CoreError.excludedOldTooLarge ∈ coreErrors inp) ∧
    (newWtCond inp → CoreError.excludedNewTooLarge ∈ coreErrors inp) := by
  obtain ⟨m1, m2, m3, m4, m5⟩ := coreErrors_mem_all inp
  refine ⟨?_, m1, m2, m3, m4, m5⟩
  intro h
  have hne : coreErrors inp ≠ [] := by
    rcases h with h | h | h | h | h
    exacts [List.ne_nil_of_mem (m1 h), List.ne_nil_of_mem (m2 h),
            List.ne_nil_of_mem (m3 h), List.ne_nil_of_mem (m4 h),
            List.ne_nil_of_mem (m5 h)]
  exact core_eq_err inp hne

/-- Witness for C4: an input violating four conditions at once receives one
    failing result whose list reports each of the four. -/
theorem validation_errors_accumulated_witness :
    calculate_core_with_manual_exclusions multiBadInput =
      Except.error (coreErrors multiBadInput) ∧
    CoreError.nonPositiveHeadlineIndex ∈ coreErrors multiBadInput ∧
    CoreError.nonPositiveHeadlineWeight ∈ coreErrors multiBadInput ∧
    CoreError.noValidExclusions ∈ coreErrors multiBadInput ∧
    CoreError.excludedOldTooLarge ∈ coreErrors multiBadInput :=
  ⟨(validation_errors_accumulated multiBadInput).1 (Or.inl multiBad_idxCond),
   (validation_errors_accumulated multiBadInput).2.1 multiBad_idxCond,
   (validation_errors_accumulated multiBadInput).2.2.1 multiBad_wtCond,
   (validation_errors_accumulated multiBadInput).2.2.2.1 multiBad_noExclCond,
   (validation_errors_accumulated multiBadInput).2.2.2.2.1 multiBad_oldWtCond⟩

/-- Claim C10: on every successful run the headline aggregate is exactly
    reconstructible: the ex-items index times the remaining weight plus the
    weighted exclusion sum gives back headline index times headline weight,
    in exact rational arithmetic, for both periods. -/
theorem headline_reconstruction (inp : CoreInput)
    (h : coreIsOk (calculate_core_with_manual_exclusions inp) = true) :
    coreOldIndex (calculate_core_with_manual_exclusions inp) *
        coreRemainingOld (calculate_core_with_manual_exclusions inp) +
      weightedSumOldExclusions inp =
      inp.headline_old_index * inp.headline_old_weight ∧
    coreNewIndex (calculate_core_with_manual_exclusions inp) *
        coreRemainingNew (calculate_core_with_manual_exclusions inp) +
      weightedSumNewExclusions inp =
      inp.headline_new_index * inp.headline_new_weight := by
  have hnil : coreErrors inp = [] := (coreIsOk_iff inp).mp h
  rcases (coreErrors_eq_nil_iff inp).mp hnil with ⟨-, -, -, h4, h5⟩
  have hR1 : inp.headline_old_weight - totalExcludedOldWeight inp ≠ 0 :=
    sub_ne_zero.mpr (lt_of_not_le h4).ne'
  have hR2 : inp.headline_new_weight - totalExcludedNewWeight inp ≠ 0 :=
    sub_ne_zero.mpr (lt_of_not_le h5).ne'
  rw [core_eq_ok inp hnil]
  constructor
  · show (coreSuccessOf inp).old_index * (coreSuccessOf inp).remaining_old_weight +
      weightedSumOldExclusions inp = _
    simp only [coreSuccessOf]
    rw [div_mul_cancel₀ _ hR1]
    ring
  · show (coreSuccessOf inp).new_index * (coreSuccessOf inp).remaining_new_weight +
      weightedSumNewExclusions inp = _
    simp only [coreSuccessOf]
    rw [div_mul_cancel₀ _ hR2]
    ring

/-- Witness for C10: the reconstruction identity holds at the documented
    scenario input. -/
theorem headline_reconstruction_witness :
    coreOldIndex (calculate_core_with_manual_exclusions scenarioInput) *
        coreRemainingOld (calculate_core_with_manual_exclusions scenarioInput) +
      weightedSumOldExclusions scenarioInput =
      scenarioInput.headline_old_index * scenarioInput.headline_old_weight ∧
    coreNewIndex (calculate_core_with_manual_exclusions scenarioInput) *
        coreRemainingNew (calculate_core_with_manual_exclusions scenarioInput) +
      weightedSumNewExclusions scenarioInput =
      scenarioInput.headline_new_index * scenarioInput.headline_new_weight :=
  headline_reconstruction scenarioInput (by rw [scenario_ok]; rfl)

/-! ## Helper lemmas for the direct calculator -/

lemma calc_eq_none_iff (e : Engine) (codes : List String) (v : String) :
    calculate_laspeyres e codes v = none ↔
      codes = [] ∨ selectedItems e codes = [] ∨ selectedPrices e codes = [] := by
  unfold calculate_laspeyres
  by_cases hc : codes.isEmpty
  · simp [hc, List.isEmpty_iff.mp hc]
  · by_cases hs : ((selectedItems e codes).isEmpty || (selectedPrices e codes).isEmpty) = true
    · have hs2 : selectedItems e codes = [] ∨ selectedPrices e codes = [] := by
        simpa [List.isEmpty_iff] using hs
      rcases hs2 with h1 | h1
      · simp [hc, hs, h1]
      · simp [hc, hs, h1]
    · have h1 : selectedItems e codes ≠ [] := by
        intro hnil
        exact hs (by simp [hnil])
      have h2 : selectedPrices e codes ≠ [] := by
        intro hnil
        exact hs (by simp [hnil])
      have h0 : codes ≠ [] := fun hnil => hc (by simp [hnil])
      simp [hc, hs, h0, h1, h2]

lemma calc_monthly_eq (e : Engine) (codes : List String) (v : String)
    (r : LaspeyresResult) (h : calculate_laspeyres e codes v = some r) :
    r.monthly_data = attachMom (monthlyIndexes e codes) := by
  unfold calculate_laspeyres at h
  by_cases hc : codes.isEmpty
  · simp [hc] at h
  · by_cases hs : ((selectedItems e codes).isEmpty || (selectedPrices e codes).isEmpty) = true
    · simp [hc, hs] at h
    · rw [if_neg hc, if_neg hs] at h
      have hr := Option.some.inj h
      rw [← hr]

lemma calc_isSome_monthly (e : Engine) (codes : List String) (v : String)
    (h : (calculate_laspeyres e codes v).isSome = true) :
    lMonthly (calculate_laspeyres e codes v) = attachMom (monthlyIndexes e codes) := by
  cases hcalc : calculate_laspeyres e codes v with
  | none => rw [hcalc] at h; simp at h
  | some r =>
    show r.monthly_data = _
    exact calc_monthly_eq e codes v r hcalc

lemma monthlyIndexes_mem (e : Engine) (codes : List String) (q : String × ℚ)
    (h : q ∈ monthlyIndexes e codes) :
    (0 < weightTotal e codes ∧
      q.2 = weightedSum e codes q.1 / weightTotal e codes * 100) ∨
    (weightTotal e codes ≤ 0 ∧ q.2 = 100) := by
  simp only [monthlyIndexes, List.mem_filterMap] at h
  obtain ⟨m, -, hm⟩ := h
  by_cases hme : (matchedCodes e codes).isEmpty
  · simp [hme] at hm
  · rw [if_neg hme] at hm
    have hq := Option.some.inj hm
    by_cases hwt : 0 < weightTotal e codes
    · left
      rw [if_pos hwt] at hq
      refine ⟨hwt, ?_⟩
      rw [← hq]
    · right
      rw [if_neg hwt] at hq
      refine ⟨le_of_not_lt hwt, ?_⟩
      rw [← hq]

lemma specMean_eq (e : Engine) (codes : List String) (m : String) :
    specWeightedMean (matchedPairs e codes m) =
      weightedSum e codes m / weightTotal e codes := by
  unfold specWeightedMean matchedPairs weightedSum weightTotal
  rw [List.map_map, List.map_map]
  rfl

lemma momRest_length (prev : ℚ) (xs : List (String × ℚ)) :
    (momRest prev xs).length = xs.length := by
  induction xs generalizing prev with
  | nil => rfl
  | cons y ys ih => simp [momRest, ih]

lemma momRest_mom (xs : List (String × ℚ)) : ∀ (prev : ℚ) (i : ℕ)
    (h2 : i < (momRest prev xs).length) (h : i < xs.length),
    ((momRest prev xs).get ⟨i, h2⟩).mom =
      ((xs.get ⟨i, h⟩).2 -
        (if i = 0 then prev
         else (xs.get ⟨i - 1, Nat.lt_of_le_of_lt (Nat.sub_le i 1) h⟩).2)) /
        (if i = 0 then prev
         else (xs.get ⟨i - 1, Nat.lt_of_le_of_lt (Nat.sub_le i 1) h⟩).2) * 100 := by
  induction xs with
  | nil => intro prev i h2 h; simp at h
  | cons y ys ih =>
    intro prev i h2 h
    cases i with
    | zero => rfl
    | succ j =>
      have hlen : j < (momRest y.2 ys).length := by
        have := h2
        simp only [momRest, List.length_cons] at this
        omega
      have hy : j < ys.length := by
        simp only [List.length_cons] at h
        omega
      have hstep : (momRest prev (y :: ys)).get ⟨j + 1, h2⟩ =
          (momRest y.2 ys).get ⟨j, hlen⟩ := rfl
      rw [hstep, ih y.2 j hlen hy]
      cases j with
      | zero => simp
      | succ k => simp

lemma attachMom_length (l : List (String × ℚ)) :
    (attachMom l).length = l.length := by
  cases l with
  | nil => rfl
  | cons x xs => simp [attachMom, momRest_length]

lemma attachMom_mom_zero (l : List (String × ℚ)) (h : 0 < (attachMom l).length) :
    ((attachMom l).get ⟨0, h⟩).mom = 0 := by
  cases l with
  | nil => simp [attachMom] at h
  | cons x xs => rfl

lemma attachMom_mom_succ (l : List (String × ℚ)) (i : ℕ)
    (h1 : i + 1 < l.length) (h2 : i + 1 < (attachMom l).length) :
    ((attachMom l).get ⟨i + 1, h2⟩).mom =
      ((l.get ⟨i + 1, h1⟩).2 - (l.get ⟨i, Nat.lt_of_succ_lt h1⟩).2) /
        (l.get ⟨i, Nat.lt_of_succ_lt h1⟩).2 * 100 := by
  cases l with
  | nil => simp at h1
  | cons x xs =>
    have hm : i < (momRest x.2 xs).length := by
      simp only [attachMom, List.length_cons] at h2
      rw [momRest_length] at h2 ⊢
      omega
    have hx : i < xs.length := by
      simp only [List.length_cons] at h1
      omega
    have hstep : (attachMom (x :: xs)).get ⟨i + 1, h2⟩ =
        (momRest x.2 xs).get ⟨i, hm⟩ := rfl
    rw [hstep, momRest_mom xs x.2 i hm hx]
    cases i with
    | zero => simp
    | succ k => simp

lemma wizardRest_length (prev : ℚ) (xs : List ℚ) :
    (wizardRest prev xs).length = xs.length := by
  induction xs generalizing prev with
  | nil => rfl
  | cons y ys ih => simp [wizardRest, ih]

lemma wizardRest_get (xs : List ℚ) : ∀ (prev : ℚ) (i : ℕ)
    (h2 : i < (wizardRest prev xs).length) (h : i < xs.length),
    (wizardRest prev xs).get ⟨i, h2⟩ =
      some ((xs.get ⟨i, h⟩ -
        (if i = 0 then prev
         else xs.get ⟨i - 1, Nat.lt_of_le_of_lt (Nat.sub_le i 1) h⟩)) /
        (if i = 0 then prev
         else xs.get ⟨i - 1, Nat.lt_of_le_of_lt (Nat.sub_le i 1) h⟩) * 100) := by
  induction xs with
  | nil => intro prev i h2 h; simp at h
  | cons y ys ih =>
    intro prev i h2 h
    cases i with
    | zero => rfl
    | succ j =>
      have hlen : j < (wizardRest y ys).length := by
        simp only [wizardRest, List.length_cons] at h2
        omega
      have hy : j < ys.length := by
        simp only [List.length_cons] at h
        omega
      have hstep : (wizardRest prev (y :: ys)).get ⟨j + 1, h2⟩ =
          (wizardRest y ys).get ⟨j, hlen⟩ := rfl
      rw [hstep, ih y j hlen hy]
      cases j with
      | zero => simp
      | succ k => simp

lemma calcMom_zero (xs : List ℚ) (h : 0 < (calculate_mom_change xs).length) :
    (calculate_mom_change xs).get ⟨0, h⟩ = none := by
  cases xs with
  | nil => simp [calculate_mom_change] at h
  | cons x xs => rfl

lemma calcMom_succ (xs : List ℚ) (i : ℕ) (h1 : i + 1 < xs.length)
    (h2 : i + 1 < (calculate_mom_change xs).length) :
    (calculate_mom_change xs).get ⟨i + 1, h2⟩ =
      some ((xs.get ⟨i + 1, h1⟩ - xs.get ⟨i, Nat.lt_of_succ_lt h1⟩) /
        xs.get ⟨i, Nat.lt_of_succ_lt h1⟩ * 100) := by
  cases xs with
  | nil => simp at h1
  | cons x xs =>
    have hm : i < (wizardRest x xs).length := by
      simp only [calculate_mom_change, List.length_cons] at h2
      omega
    have hx : i < xs.length := by
      simp only [List.length_cons] at h1
      omega
    have hstep : (calculate_mom_change (x :: xs)).get ⟨i + 1, h2⟩ =
        (wizardRest x xs).get ⟨i, hm⟩ := rfl
    rw [hstep, wizardRest_get xs x i hm hx]
    cases i with
    | zero => simp
    | succ k => simp

lemma calc_monthly_variant (e : Engine) (codes : List String) (v1 v2 : String) :
    Option.map (fun r => r.monthly_data) (calculate_laspeyres e codes v1) =
      Option.map (fun r => r.monthly_data) (calculate_laspeyres e codes v2) := by
  unfold calculate_laspeyres
  by_cases hc : codes.isEmpty
  · simp [hc]
  · by_cases hs : ((selectedItems e codes).isEmpty ||
        (selectedPrices e codes).isEmpty) = true
    · simp [hc, hs]
    · simp [hc, hs]

lemma renorm_sum (l : List Item) (S : ℚ) :
    (l.map (fun it => it.weight / S * 100)).sum =
      (l.map (fun it => it.weight)).sum * 100 / S := by
  have heq : (fun it : Item => it.weight / S * 100) =
      fun it : Item => it.weight * (100 / S) := by
    funext it
    ring
  rw [heq, List.sum_map_mul_right, mul_div_assoc]

/-! ## Evaluation lemmas on the concrete engines -/

lemma zw_sel : selectedItems engineZeroWeight ["A"] =
    [{ code := "A", weight := 0 }] := by
  simp [selectedItems, engineZeroWeight]

lemma zw_prices : selectedPrices engineZeroWeight ["A"] =
    [{ code := "A", price := fun _ => 50 }] := by
  simp [selectedPrices, engineZeroWeight]

lemma zw_raw : rawWeightSum engineZeroWeight ["A"] = 0 := by
  norm_num [rawWeightSum, zw_sel]

lemma zw_wt : weightTotal engineZeroWeight ["A"] = 0 := by
  norm_num [weightTotal, matchedCodes, selectedItems, selectedPrices,
    engineZeroWeight, normWeight, weightOf, rawWeightSum, List.find?]

lemma zw_monthly : monthlyIndexes engineZeroWeight ["A"] = [("2024-01", 100)] := by
  simp only [monthlyIndexes, zw_wt]
  norm_num [engineZeroWeight, matchedCodes, selectedItems, selectedPrices,
    List.filterMap_cons, List.filterMap_nil]

lemma zm_sel : selectedItems engineZeroMatched ["A", "B"] =
    [{ code := "A", weight := 0 }, { code := "B", weight := 5 }] := by
  simp [selectedItems, engineZeroMatched]

lemma zm_prices : selectedPrices engineZeroMatched ["A", "B"] =
    [{ code := "A", price := fun _ => 50 }] := by
  simp [selectedPrices, engineZeroMatched]

lemma zm_wt : weightTotal engineZeroMatched ["A", "B"] = 0 := by
  norm_num [weightTotal, matchedCodes, selectedItems, selectedPrices,
    engineZeroMatched, normWeight, weightOf, rawWeightSum, List.find?]

lemma zm_monthly : monthlyIndexes engineZeroMatched ["A", "B"] =
    [("2024-01", 100)] := by
  simp only [monthlyIndexes, zm_wt]
  norm_num [engineZeroMatched, matchedCodes, selectedItems, selectedPrices,
    List.filterMap_cons, List.filterMap_nil]

lemma es_sel : selectedItems engineSimple ["A"] =
    [{ code := "A", weight := 2 }] := by
  simp [selectedItems, engineSimple]

lemma es_prices : selectedPrices engineSimple ["A"] =
    [{ code := "A", price := fun _ => 50 }] := by
  simp [selectedPrices, engineSimple]

lemma es_raw : rawWeightSum engineSimple ["A"] = 2 := by
  norm_num [rawWeightSum, es_sel]

lemma es_wt : weightTotal engineSimple ["A"] = 100 := by
  norm_num [weightTotal, matchedCodes, selectedItems, selectedPrices,
    engineSimple, normWeight, weightOf, rawWeightSum, List.find?]

lemma es_ws : weightedSum engineSimple ["A"] "2024-01" = 5000 := by
  norm_num [weightedSum, matchedCodes, selectedItems, selectedPrices,
    engineSimple, normWeight, weightOf, rawWeightSum, priceOf, List.find?]

lemma es_monthly : monthlyIndexes engineSimple ["A"] = [("2024-01", 5000)] := by
  simp only [monthlyIndexes, es_wt]
  norm_num [engineSimple, matchedCodes, selectedItems, selectedPrices,
    List.filterMap_cons, List.filterMap_nil, weightedSum, normWeight, weightOf,
    rawWeightSum, priceOf, List.find?]

lemma es_mean : specWeightedMean (matchedPairs engineSimple ["A"] "2024-01") = 50 := by
  norm_num [specWeightedMean, matchedPairs, matchedCodes, selectedItems,
    selectedPrices, engineSimple, normWeight, weightOf, rawWeightSum, priceOf,
    List.find?]

lemma es_isSome : (calculate_laspeyres engineSimple ["A"] "v").isSome = true := by
  simp [calculate_laspeyres, es_sel, es_prices]

lemma wiz_norm : wizardNormWeights [{ code := "A", weight := 2 }] [] =
    some [("A", 100)] := by
  norm_num [wizardNormWeights, wizardRemaining]

/-! ## Claim theorems for the direct calculator and the wizard -/

/-- Claim C3, amended: the direct calculation fails (returns no result,
    the condition the spec names EmptySelectionError) exactly when the
    selected code list is empty or matches no weight row or no price row;
    in particular excluding every item yields no result, so no result is
    ever computed with a division-by-zero weight from an empty selection.
    However a non-empty selection whose raw weight sum is not positive but
    which still matches weight and price rows does NOT fail: the engine
    returns a result whose per-period index falls back to the default 100.0
    (see the counterexample). -/
theorem empty_selection_behavior (e : Engine) (codes : List String) (v : String)
    (eds egs ecs : List String) :
    (calculate_laspeyres e codes v = none ↔
      codes = [] ∨ selectedItems e codes = [] ∨ selectedPrices e codes = []) ∧
    ((∀ it ∈ e.itemsDf, it.code ∈ excludedItemsOf e.hierarchy eds egs ecs) →
      get_index_with_exclusions e eds egs ecs = none) := by
  refine ⟨calc_eq_none_iff e codes v, ?_⟩
  intro hall
  show calculate_laspeyres e ((e.itemsDf.map (fun it => it.code)).filter
    fun c => !((excludedItemsOf e.hierarchy eds egs ecs).contains c))
    "CPI with Exclusions" = none
  have hsel : ((e.itemsDf.map (fun it => it.code)).filter
      fun c => !((excludedItemsOf e.hierarchy eds egs ecs).contains c)) = [] := by
    rw [List.filter_eq_nil_iff]
    intro c hc
    obtain ⟨it, hit, rfl⟩ := List.mem_map.mp hc
    simp [hall it hit]
  rw [hsel]
  rfl

/-- Witness for C3 (amended): an empty selection yields no result, and
    excluding the only division of the hierarchy engine excludes every
    item and also yields no result. -/
theorem empty_selection_behavior_witness :
    calculate_laspeyres engineHier [] "v" = none ∧
    get_index_with_exclusions engineHier ["D1"] [] [] = none :=
  ⟨(empty_selection_behavior engineHier [] "v" [] [] []).1.mpr (Or.inl rfl),
   (empty_selection_behavior engineHier [] "v" ["D1"] [] []).2 (by decide)⟩

/-- Counterexample for C3 as stated: a non-empty selection whose raw weight
    sum is 0 does not fail; the engine returns a result whose only monthly
    entry carries the default index 100. -/
theorem zero_weight_selection_returns_result :
    rawWeightSum engineZeroWeight ["A"] = 0 ∧
    (calculate_laspeyres engineZeroWeight ["A"] "Custom").isSome = true ∧
    lMonthly (calculate_laspeyres engineZeroWeight ["A"] "Custom") =
      [{ month := "2024-01", index := 100, mom := 0 }] := by
  refine ⟨zw_raw, ?_, ?_⟩
  · simp [calculate_laspeyres, zw_sel, zw_prices]
  · simp only [calculate_laspeyres, zw_sel, zw_prices, zw_monthly, lMonthly,
      attachMom, momRest]
    norm_num

/-- Claim C7, amended: failures of the selection (empty or unmatched) are
    reported by returning no result, but inside the per-month loop there is
    one silent default substitution: every produced month entry either has a
    positive matched weight total and the weighted index value, or a
    non-positive matched weight total and the substituted default index
    100.0 — the non-positive case is not reported as an error (see the
    counterexample refuting the original claim). -/
theorem default_substitution_behavior (e : Engine) (codes : List String)
    (v : String) (q : String × ℚ) :
    (q ∈ monthlyIndexes e codes →
      (0 < weightTotal e codes ∧
        q.2 = weightedSum e codes q.1 / weightTotal e codes * 100) ∨
      (weightTotal e codes ≤ 0 ∧ q.2 = 100)) ∧
    ((calculate_laspeyres e codes v).isSome = true →
      lMonthly (calculate_laspeyres e codes v) =
        attachMom (monthlyIndexes e codes)) :=
  ⟨monthlyIndexes_mem e codes q, calc_isSome_monthly e codes v⟩

/-- Witness for C7 (amended): at the simple engine the produced month entry
    satisfies the positive-weight branch, and the monthly data of the
    returned result is the MoM-attached month list. -/
theorem default_substitution_behavior_witness :
    ((0 < weightTotal engineSimple ["A"] ∧
      (("2024-01", (5000 : ℚ)) : String × ℚ).2 =
        weightedSum engineSimple ["A"]
          (("2024-01", (5000 : ℚ)) : String × ℚ).1 /
          weightTotal engineSimple ["A"] * 100) ∨
     (weightTotal engineSimple ["A"] ≤ 0 ∧
      (("2024-01", (5000 : ℚ)) : String × ℚ).2 = 100)) ∧
    lMonthly (calculate_laspeyres engineSimple ["A"] "v") =
      attachMom (monthlyIndexes engineSimple ["A"]) :=
  ⟨(default_substitution_behavior engineSimple ["A"] "v" ("2024-01", 5000)).1
      (by rw [es_monthly]; exact List.mem_singleton_self _),
   (default_substitution_behavior engineSimple ["A"] "v" ("2024-01", 5000)).2
      es_isSome⟩

/-- Counterexample for C7 as stated: with a matched weight total of 0 the
    engine does not report an error; it returns a result whose month entry
    carries the substituted default index 100.0. -/
theorem weight_total_zero_yields_default_result :
    weightTotal engineZeroMatched ["A", "B"] = 0 ∧
    (calculate_laspeyres engineZeroMatched ["A", "B"] "v").isSome = true ∧
    lMonthly (calculate_laspeyres engineZeroMatched ["A", "B"] "v") =
      [{ month := "2024-01", index := 100, mom := 0 }] := by
  refine ⟨zm_wt, ?_, ?_⟩
  · simp [calculate_laspeyres, zm_sel, zm_prices]
  · simp only [calculate_laspeyres, zm_sel, zm_prices, zm_monthly, lMonthly,
      attachMom, momRest]
    norm_num

/-- Claim C5, amended: both calculators renormalize the selected weights to
    weight divided by the raw subset sum times 100, and these renormalized
    weights sum to exactly 100 whenever the raw sum is positive; the wizard
    per-cell index is exactly the weighted arithmetic mean of the matched
    price relatives under the renormalized weights; the dashboard engine per
    month index is that weighted arithmetic mean MULTIPLIED BY 100 (see the
    counterexample refuting the plain weighted-mean reading). -/
theorem renormalized_weighted_mean :
    (∀ (e : Engine) (codes : List String), 0 < rawWeightSum e codes →
      ((selectedItems e codes).map
        (fun it => it.weight / rawWeightSum e codes * 100)).sum = 100) ∧
    (∀ (itemMap : List Item) (excluded : List String)
        (res : List (String × ℚ)),
      wizardNormWeights itemMap excluded = some res →
      0 < ((wizardRemaining itemMap excluded).map (fun it => it.weight)).sum →
      (res.map (fun p => p.2)).sum = 100) ∧
    (∀ (e : Engine) (codes : List String) (q : String × ℚ),
      q ∈ monthlyIndexes e codes → 0 < weightTotal e codes →
      q.2 = specWeightedMean (matchedPairs e codes q.1) * 100) ∧
    (∀ rows : List (ℚ × ℚ), wizardCellIndex rows = specWeightedMean rows) := by
  refine ⟨?_, ?_, ?_, fun rows => rfl⟩
  · intro e codes h
    rw [renorm_sum]
    show rawWeightSum e codes * 100 / rawWeightSum e codes = 100
    rw [mul_comm, mul_div_assoc, div_self (ne_of_gt h), mul_one]
  · intro itemMap excluded res hres hpos
    simp only [wizardNormWeights] at hres
    by_cases hre : (wizardRemaining itemMap excluded).isEmpty
    · simp [hre] at hres
    · rw [if_neg hre] at hres
      have hr := Option.some.inj hres
      rw [← hr, List.map_map]
      show ((wizardRemaining itemMap excluded).map
        (fun it => it.weight /
          ((wizardRemaining itemMap excluded).map (fun it => it.weight)).sum
          * 100)).sum = 100
      rw [renorm_sum]
      rw [mul_comm, mul_div_assoc, div_self (ne_of_gt hpos), mul_one]
  · intro e codes q hq hwt
    rcases monthlyIndexes_mem e codes q hq with ⟨-, hv⟩ | ⟨hle, -⟩
    · rw [hv, specMean_eq]
    · exact absurd hwt (not_lt.mpr hle)

/-- Witness for C5 (amended): at the simple engine the renormalized weights
    sum to 100, the wizard weights renormalize to 100, and the produced
    month value equals the weighted mean times 100. -/
theorem renormalized_weighted_mean_witness :
    ((selectedItems engineSimple ["A"]).map
      (fun it => it.weight / rawWeightSum engineSimple ["A"] * 100)).sum = 100 ∧
    (([("A", (100 : ℚ))] : List (String × ℚ)).map (fun p => p.2)).sum = 100 ∧
    (("2024-01", (5000 : ℚ)) : String × ℚ).2 =
      specWeightedMean (matchedPairs engineSimple ["A"]
        (("2024-01", (5000 : ℚ)) : String × ℚ).1) * 100 :=
  ⟨renormalized_weighted_mean.1 engineSimple ["A"] (by rw [es_raw]; norm_num),
   renormalized_weighted_mean.2.1 [{ code := "A", weight := 2 }] []
     [("A", 100)] wiz_norm (by norm_num [wizardRemaining]),
   renormalized_weighted_mean.2.2.1 engineSimple ["A"] ("2024-01", 5000)
     (by rw [es_monthly]; exact List.mem_singleton_self _)
     (by rw [es_wt]; norm_num)⟩

/-- Counterexample for C5 as stated: at the simple engine the produced month
    index is 5000, but the weighted arithmetic mean of the matched price
    relatives under the renormalized weights is 50 — the index is not the
    weighted mean. -/
theorem engine_index_is_not_weighted_mean :
    monthlyIndexes engineSimple ["A"] = [("2024-01", 5000)] ∧
    specWeightedMean (matchedPairs engineSimple ["A"] "2024-01") = 50 ∧
    (5000 : ℚ) ≠ 50 := by
  refine ⟨es_monthly, es_mean, by norm_num⟩

/-- Claim C6: with all three exclusion collections empty every item stays
    selected and the exclusion path produces exactly the same monthly index
    series (index and MoM values alike) as the unrestricted headline
    calculation. -/
theorem zero_exclusions_identity (e : Engine) :
    Option.map (fun r => r.monthly_data) (get_index_with_exclusions e [] [] []) =
      Option.map (fun r => r.monthly_data) (get_headline_index e) := by
  show Option.map _ (calculate_laspeyres e
      ((e.itemsDf.map (fun it => it.code)).filter
        fun c => !((excludedItemsOf e.hierarchy [] [] []).contains c))
      "CPI with Exclusions") = _
  have h1 : excludedItemsOf e.hierarchy [] [] [] = [] := rfl
  rw [h1]
  have h2 : ((e.itemsDf.map (fun it => it.code)).filter
      fun c => !((([] : List String)).contains c)) =
      e.itemsDf.map (fun it => it.code) :=
    List.filter_eq_self.mpr (fun a _ => rfl)
  rw [h2]
  exact calc_monthly_variant e (e.itemsDf.map (fun it => it.code))
    "CPI with Exclusions" "Headline CPI"

/-- Claim C8: in the engine result the first month entry carries the
    explicit MoM value 0 and every later entry carries
    (index minus previous index) / previous index * 100; the wizard MoM
    series marks the first period of a group as undefined (the pandas NaN of
    pct_change, embedded as none) and gives the same formula afterwards, and
    the grouped computation restarts the series at every group key. -/
theorem mom_change_formula :
    (∀ (l : List (String × ℚ)) (h : 0 < (attachMom l).length),
      ((attachMom l).get ⟨0, h⟩).mom = 0) ∧
    (∀ (l : List (String × ℚ)) (i : ℕ) (h1 : i + 1 < l.length)
        (h2 : i + 1 < (attachMom l).length),
      ((attachMom l).get ⟨i + 1, h2⟩).mom =
        ((l.get ⟨i + 1, h1⟩).2 - (l.get ⟨i, Nat.lt_of_succ_lt h1⟩).2) /
          (l.get ⟨i, Nat.lt_of_succ_lt h1⟩).2 * 100) ∧
    (∀ (e : Engine) (codes : List String) (v : String),
      (calculate_laspeyres e codes v).isSome = true →
      lMonthly (calculate_laspeyres e codes v) =
        attachMom (monthlyIndexes e codes)) ∧
    (∀ (xs : List ℚ) (h : 0 < (calculate_mom_change xs).length),
      (calculate_mom_change xs).get ⟨0, h⟩ = none) ∧
    (∀ (xs : List ℚ) (i : ℕ) (h1 : i + 1 < xs.length)
        (h2 : i + 1 < (calculate_mom_change xs).length),
      (calculate_mom_change xs).get ⟨i + 1, h2⟩ =
        some ((xs.get ⟨i + 1, h1⟩ - xs.get ⟨i, Nat.lt_of_succ_lt h1⟩) /
          xs.get ⟨i, Nat.lt_of_succ_lt h1⟩ * 100)) ∧
    (∀ gs : List (String × List ℚ),
      calculate_mom_change_grouped gs =
        gs.map fun g => (g.1, calculate_mom_change g.2)) :=
  ⟨attachMom_mom_zero, attachMom_mom_succ, calc_isSome_monthly,
   calcMom_zero, calcMom_succ, fun _ => rfl⟩

/-- Witness for C8: on the concrete two-month series the second engine MoM
    is the percent change formula, the second wizard MoM is ten percent, and
    the engine monthly data of the simple engine is the MoM-attached list. -/
theorem mom_change_formula_witness :
    ((attachMom [("a", (100 : ℚ)), ("b", 110)]).get
      ⟨1, by rw [attachMom_length]; norm_num⟩).mom =
      (([("a", (100 : ℚ)), ("b", 110)].get ⟨1, by norm_num⟩).2 -
        ([("a", (100 : ℚ)), ("b", 110)].get ⟨0, by norm_num⟩).2) /
        ([("a", (100 : ℚ)), ("b", 110)].get ⟨0, by norm_num⟩).2 * 100 ∧
    (calculate_mom_change [(100 : ℚ), 110]).get
      ⟨1, by simp [calculate_mom_change, wizardRest_length]⟩ =
      some ((([(100 : ℚ), 110].get ⟨1, by norm_num⟩) -
        ([(100 : ℚ), 110].get ⟨0, by norm_num⟩)) /
        ([(100 : ℚ), 110].get ⟨0, by norm_num⟩) * 100) ∧
    lMonthly (calculate_laspeyres engineSimple ["A"] "v") =
      attachMom (monthlyIndexes engineSimple ["A"]) :=
  ⟨mom_change_formula.2.1 [("a", (100 : ℚ)), ("b", 110)] 0 (by norm_num)
      (by rw [attachMom_length]; norm_num),
   mom_change_formula.2.2.2.2.1 [(100 : ℚ), 110] 0 (by norm_num)
      (by simp [calculate_mom_change, wizardRest_length]),
   mom_change_formula.2.2.1 engineSimple ["A"] "v" es_isSome⟩

/-- Claim C9: toggling the same selector twice returns the exclusion
    collection to its prior state: exactly (as a list) when the selector was
    absent, and as the same set (a permutation, with identical membership)
    when it was present — the collections are sets by the data model, and
    every reachable collection is duplicate-free since toggling preserves
    that invariant from the empty start. -/
theorem exclusion_toggle_involution (l : List String) (x : String) :
    (x ∉ l → pick_exclusion (pick_exclusion l x) x = l) ∧
    (l.Nodup → (pick_exclusion (pick_exclusion l x) x).Perm l) ∧
    (l.Nodup → ∀ y, y ∈ pick_exclusion (pick_exclusion l x) x ↔ y ∈ l) := by
  have hid : x ∉ l → pick_exclusion (pick_exclusion l x) x = l := by
    intro hx
    have h1 : pick_exclusion l x = l ++ [x] := by
      rw [pick_exclusion, if_neg hx]
    rw [h1, pick_exclusion,
      if_pos (List.mem_append_right l (List.mem_singleton_self x)),
      List.erase_append_right [x] hx, List.erase_cons_head, List.append_nil]
  have hperm : l.Nodup → (pick_exclusion (pick_exclusion l x) x).Perm l := by
    intro hl
    by_cases hx : x ∈ l
    · have h1 : pick_exclusion l x = l.erase x := by
        rw [pick_exclusion, if_pos hx]
      have hxe : x ∉ l.erase x := by
        intro hc
        exact ((List.Nodup.mem_erase_iff hl).mp hc).1 rfl
      rw [h1, pick_exclusion, if_neg hxe]
      exact (List.perm_append_singleton x (l.erase x)).trans
        (List.perm_cons_erase hx).symm
    · rw [hid hx]
  exact ⟨hid, hperm, fun hl y => (hperm hl).mem_iff⟩

/-- Witness for C9: a double toggle of an absent selector is the exact
    identity, and a double toggle of a present selector returns the same
    set (permutation and membership). -/
theorem exclusion_toggle_involution_witness :
    pick_exclusion (pick_exclusion ["Food"] "Fuel") "Fuel" = ["Food"] ∧
    (pick_exclusion (pick_exclusion ["Food", "Fuel"] "Food") "Food").Perm
      ["Food", "Fuel"] ∧
    ("Food" ∈ pick_exclusion (pick_exclusion ["Food", "Fuel"] "Food") "Food" ↔
      "Food" ∈ (["Food", "Fuel"] : List String)) :=
  ⟨(exclusion_toggle_involution ["Food"] "Fuel").1 (by decide),
   (exclusion_toggle_involution ["Food", "Fuel"] "Food").2.1 (by decide),
   (exclusion_toggle_involution ["Food", "Fuel"] "Food").2.2 (by decide) "Food"⟩

/-- Toggling preserves the duplicate-free invariant, so the Nodup hypothesis
    of the involution theorem holds for every collection reachable from the
    empty start state of the wizard. -/
lemma pick_exclusion_nodup (l : List String) (x : String) (hl : l.Nodup) :
    (pick_exclusion l x).Nodup := by
  unfold pick_exclusion
  by_cases hx : x ∈ l
  · rw [if_pos hx]
    exact hl.erase x
  · rw [if_neg hx]
    rw [(List.perm_append_singleton x l).nodup_iff]
    exact List.nodup_cons.mpr ⟨hx, hl⟩

end CPI
